import Mathlib

/-!
Shallow embedding of the cashofferai-backend valuation and offer logic.

The repository is a small Express HTTP service.  The logic under
verification lives in two files:

* `src/unnamed/part_003` — the full server: the `/api/offer/calculate`
  handler (lines 162-228) and the `calculateBaseValue` helper
  (lines 462-524), plus the NHTSA `/api/vehicle/decode` handler
  (lines 26-94).
* `src/server.js` — the carAPI variant: its own `calculateBaseValue`
  (lines 206-245, with an MSRP path) and `/api/vehicle/decode`
  (lines 89-203).

JavaScript numbers are modelled as exact rationals, `Math.round` as the
JS semantics (round half toward positive infinity), objects with
possibly-absent fields as `Option`, and arbitrary JSON values (the
condition flags) as the inductive `JSVal`.  Handlers that can throw a
`TypeError` (property access on `undefined`) and be caught by the
route-level `try/catch` are modelled in `Except`.
-/

namespace CashOffer

/-- A JavaScript JSON value, as far as the offer calculator inspects one:
the condition flags are compared with `=== false`, and `hasPhotos` is
tested for truthiness. -/
inductive JSVal where
  | undef : JSVal
  | bool (b : Bool) : JSVal
  | num (q : ℚ) : JSVal
  | str (s : String) : JSVal
deriving DecidableEq

/-- JavaScript truthiness of a `JSVal` (0, empty string, undefined are
falsy). -/
def jsTruthy : JSVal → Bool
  | .undef => false
  | .bool b => b
  | .num q => decide (q ≠ 0)
  | .str s => decide (s ≠ "")

/-- JavaScript `Math.round`: round half toward positive infinity.
Defined through `Rat.floor` so that concrete instances evaluate. -/
def jsRound (q : ℚ) : ℤ := (q + 1/2).floor

/-- `jsRound` agrees with the mathematical floor of `q + 1/2`. -/
theorem jsRound_floor (q : ℚ) : jsRound q = ⌊q + 1/2⌋ := rfl

/-- Does `sub` occur as a contiguous run inside the second list?  This is
the semantics of JavaScript `String.prototype.includes`. -/
def containsSeq (sub : List Char) : List Char → Bool
  | [] => sub.isEmpty
  | c :: rest => sub.isPrefixOf (c :: rest) || containsSeq sub rest

/-- JavaScript `s.includes(sub)` on a possibly-undefined receiver reached
through optional chaining (`s?.includes(sub)`): `undefined` yields a falsy
result. -/
def jsIncludes (s : Option String) (sub : String) : Bool :=
  match s with
  | some t => containsSeq sub.toList t.toList
  | none => false

/-- JavaScript `s?.toLowerCase().includes(sub)`. -/
def jsIncludesLower (s : Option String) (sub : String) : Bool :=
  match s with
  | some t => containsSeq sub.toList (t.toList.map Char.toLower)
  | none => false

/-- JavaScript `list.includes(x)` for a string array against a
possibly-undefined value. -/
def listIncludes (l : List String) (m : Option String) : Bool :=
  match m with
  | some s => l.contains s
  | none => false

/-- JavaScript `x || d` for a numeric rational field: absent and `0` are
falsy and give the default. -/
def jsOrQ (o : Option ℚ) (d : ℚ) : ℚ :=
  match o with
  | some q => if q = 0 then d else q
  | none => d

/-- JavaScript `x || d` for a numeric integer field. -/
def jsOrZ (o : Option ℤ) (d : ℤ) : ℤ :=
  match o with
  | some z => if z = 0 then d else z
  | none => d

/-- JavaScript `x || d` for a string field: absent and the empty string
are falsy and give the default. -/
def jsOrStr (o : Option String) (d : String) : String :=
  match o with
  | some s => if s = "" then d else s
  | none => d

namespace Part003

/-! The `/api/offer/calculate` handler of `src/unnamed/part_003`,
lines 162-228. -/

/-- The `vehicleData` object sent by the client, as read by the offer
handler (`vehicleData.baseValue`, `vehicleData.year`). -/
structure OfferVehicleData where
  baseValue : Option ℚ
  year : Option ℤ
deriving DecidableEq

/-- The `conditionData` object: the handler reads the four keys of its
`conditionAdjustments` table and compares each with `=== false`. -/
structure ConditionData where
  tires : JSVal
  windshield : JSVal
  lights : JSVal
  accidents : JSVal
deriving DecidableEq

/-- A condition object with every flag absent. -/
def emptyCondition : ConditionData := ⟨.undef, .undef, .undef, .undef⟩

/-- A condition object with every flag the boolean literal `true`. -/
def allTrueCondition : ConditionData :=
  ⟨.bool true, .bool true, .bool true, .bool true⟩

/-- The four condition keys of the `conditionAdjustments` table. -/
inductive CFlag where
  | tires : CFlag
  | windshield : CFlag
  | lights : CFlag
  | accidents : CFlag
deriving DecidableEq

/-- Overwrite one condition flag. -/
def setFlag (cd : ConditionData) : CFlag → JSVal → ConditionData
  | .tires, v => { cd with tires := v }
  | .windshield, v => { cd with windshield := v }
  | .lights, v => { cd with lights := v }
  | .accidents, v => { cd with accidents := v }

/-- The `Object.keys(conditionAdjustments).forEach` accumulation (and the
identical `reduce` in `offerDetails.conditionAdjustment`): each key whose
value is `=== false` contributes its fixed negative adjustment
(tires -300, windshield -200, lights -500, accidents -2000). -/
def conditionAdjustment (cd : ConditionData) : ℚ :=
  [(cd.tires, (-300 : ℚ)), (cd.windshield, -200),
   (cd.lights, -500), (cd.accidents, -2000)].foldl
    (fun s p => s + (if p.1 = JSVal.bool false then p.2 else 0)) 0

/-- `currentYear - (vehicleData.year || 2020)` (line 191). -/
def vehicleAge (vd : OfferVehicleData) (currentYear : ℤ) : ℤ :=
  currentYear - jsOrZ vd.year 2020

/-- The mileage penalty (lines 192-197): `mileageDiff = mileage -
expectedMileage`; if positive, `Math.round((mileageDiff / 1000) * 50)` is
subtracted.  An absent `mileage` makes `mileageDiff` NaN, whose `> 0`
comparison is false, so no penalty applies. -/
def mileagePenalty (mileage : Option ℚ) (expected : ℚ) : ℚ :=
  match mileage with
  | some m => if m - expected > 0 then (jsRound ((m - expected) / 1000 * 50) : ℚ) else 0
  | none => 0

/-- The accumulated `offerAmount` just before the instant-cash discount:
`(vehicleData.baseValue || 25000)` plus the condition adjustments minus
the mileage penalty. -/
def offerBeforeDiscount (vd : OfferVehicleData) (cd : ConditionData)
    (mileage : Option ℚ) (currentYear : ℤ) : ℚ :=
  jsOrQ vd.baseValue 25000 + conditionAdjustment cd
    - mileagePenalty mileage (12000 * ((vehicleAge vd currentYear : ℤ) : ℚ))

/-- `offerAmount = Math.round(offerAmount * 0.83)` (line 200). -/
def offerRounded (vd : OfferVehicleData) (cd : ConditionData)
    (mileage : Option ℚ) (currentYear : ℤ) : ℤ :=
  jsRound (offerBeforeDiscount vd cd mileage currentYear * (83/100))

/-- The `offerDetails` object of the JSON response (lines 219-227). -/
structure OfferDetails where
  retailValue : ℚ
  conditionAdjustment : ℚ
  mileageAdjustment : ℚ
  instantCashDiscount : ℤ
  finalOffer : ℤ
deriving DecidableEq

/-- The JSON response of `/api/offer/calculate` (lines 212-228); the
randomized cosmetic `comparisons` strings are not modelled. -/
structure OfferResponse where
  offerAmount : ℤ
  confidenceBand : ℤ
  validDays : ℤ
  validMiles : ℤ
  offerDetails : OfferDetails
deriving DecidableEq

/-- The successful body of the offer handler, given that `vehicleData`
and `conditionData` are present objects. -/
def calculateOffer (vd : OfferVehicleData) (cd : ConditionData)
    (mileage : Option ℚ) (hasPhotos : JSVal) (currentYear : ℤ) : OfferResponse :=
  let offer := offerRounded vd cd mileage currentYear
  { offerAmount := max offer 1000
    confidenceBand := if jsTruthy hasPhotos then 100 else 250
    validDays := 7
    validMiles := 300
    offerDetails :=
      { retailValue := jsOrQ vd.baseValue 25000
        conditionAdjustment := conditionAdjustment cd
        mileageAdjustment :=
          -mileagePenalty mileage (12000 * ((vehicleAge vd currentYear : ℤ) : ℚ))
        instantCashDiscount := jsRound ((offer : ℚ) * (17/100))
        finalOffer := max offer 1000 } }

/-- The `/api/offer/calculate` route.  If the request body lacks the
`vehicleData` or `conditionData` object, the property accesses
`vehicleData.baseValue` / `conditionData[key]` throw a `TypeError`, which
the route-level `catch` turns into a 500 error response (modelled as
`Except.error ()`). -/
def offerHandler (vd : Option OfferVehicleData) (cd : Option ConditionData)
    (mileage : Option ℚ) (hasPhotos : JSVal) (currentYear : ℤ) :
    Except Unit OfferResponse :=
  match vd, cd with
  | some v, some c => .ok (calculateOffer v c mileage hasPhotos currentYear)
  | _, _ => .error ()

/-! The `calculateBaseValue` helper of `src/unnamed/part_003`,
lines 462-524. -/

/-- The vehicle object assembled by the decode endpoint and consumed by
`calculateBaseValue` (only the fields the estimator reads, plus `model`
for the decode-tolerance claims). -/
structure Vehicle where
  year : Option ℤ
  make : Option String
  model : Option String
  bodyClass : Option String
  fuelType : Option String
  engineCylinders : Option ℤ
deriving DecidableEq

/-- `premiumMakes` (line 486). -/
def premiumMakes : List String :=
  ["Tesla", "BMW", "Mercedes-Benz", "Audi", "Lexus", "Porsche", "Land Rover",
   "Genesis", "Infiniti", "Acura", "Volvo", "Jaguar", "Maserati", "Alfa Romeo"]

/-- `reliableMakes` (line 487). -/
def reliableMakes : List String := ["Toyota", "Honda", "Mazda", "Subaru"]

/-- `truckMakes` (line 488). -/
def truckMakes : List String := ["Ford", "Chevrolet", "GMC", "Ram", "Dodge"]

/-- The uncapped tiered `depreciationRate` (lines 471-480): age 0 gives 0,
age 1 gives 20 percent, ages through 5 add 15 percent per year beyond the
first, older ages add 10 percent per year beyond the fifth. -/
def depreciationRateRaw (age : ℤ) : ℚ :=
  if age = 0 then 0
  else if age = 1 then 1/5
  else if age ≤ 5 then 1/5 + ((age : ℚ) - 1) * (3/20)
  else 1/5 + 4 * (3/20) + ((age : ℚ) - 5) * (1/10)

/-- `depreciationRate = Math.min(depreciationRate, 0.85)` (line 482). -/
def depreciationRate (age : ℤ) : ℚ := min (depreciationRateRaw age) (17/20)

/-- The base value after depreciation and before the category
multipliers: `25000 * (1 - depreciationRate)` (lines 464-483). -/
def depreciatedBase (age : ℤ) : ℚ := 25000 * (1 - depreciationRate age)

/-- `calculateBaseValue` (lines 462-524): tiered depreciation from the
25000 anchor, then brand, body-class, fuel and engine multipliers applied
in sequence, rounded, floored at 1000. -/
def calculateBaseValue (v : Vehicle) (currentYear : ℤ) : ℤ :=
  let age := currentYear - jsOrZ v.year 2020
  let b1 := depreciatedBase age
  let b2 :=
    if listIncludes premiumMakes v.make then b1 * (7/5)
    else if listIncludes reliableMakes v.make then b1 * (23/20)
    else if listIncludes truckMakes v.make && jsIncludes v.bodyClass "Truck" then
      b1 * (13/10)
    else b1
  let b3 :=
    if jsIncludes v.bodyClass "SUV" || jsIncludes v.bodyClass "Sport Utility" then
      b2 * (6/5)
    else if jsIncludes v.bodyClass "Truck" || jsIncludes v.bodyClass "Pickup" then
      b2 * (5/4)
    else if jsIncludes v.bodyClass "Minivan" then b2 * (9/10)
    else if jsIncludes v.bodyClass "Convertible" || jsIncludes v.bodyClass "Coupe" then
      b2 * (11/10)
    else b2
  let b4 :=
    if jsIncludes v.fuelType "Electric" then b3 * (6/5)
    else if jsIncludes v.fuelType "Hybrid" then b3 * (11/10)
    else b3
  let b5 :=
    match v.engineCylinders with
    | some c => if c ≥ 8 then b4 * (23/20) else if c = 6 then b4 * (21/20) else b4
    | none => b4
  max (jsRound b5) 1000

/-- The fuel multiplier of `calculateBaseValue`, factored out for the
statement of the truck-stacking claim. -/
def fuelFactor (v : Vehicle) : ℚ :=
  if jsIncludes v.fuelType "Electric" then 6/5
  else if jsIncludes v.fuelType "Hybrid" then 11/10
  else 1

/-- The engine-cylinder multiplier of `calculateBaseValue`, factored out
for the statement of the truck-stacking claim. -/
def engineFactor (v : Vehicle) : ℚ :=
  match v.engineCylinders with
  | some c => if c ≥ 8 then 23/20 else if c = 6 then 21/20 else 1
  | none => 1

/-! The NHTSA `/api/vehicle/decode` handler of `src/unnamed/part_003`,
lines 26-94. -/

/-- The first element of the NHTSA `DecodeVinValues` results, with the
fields the handler reads.  String fields are `Option` (absent or present);
`modelYear` and `engineCylinders` stand for the result of `parseInt` on
the raw field, `none` when the parse yields NaN. -/
structure NhtsaData where
  errorCode : String
  modelYear : Option ℤ
  make : Option String
  model : Option String
  bodyClass : Option String
  fuelType : Option String
  engineCylinders : Option ℤ
deriving DecidableEq

/-- `parseInt(x) || null`: a NaN parse or a parsed 0 becomes `null`. -/
def parsedOrNull (o : Option ℤ) : Option ℤ :=
  match o with
  | some z => if z = 0 then none else some z
  | none => none

/-- The response of the NHTSA decode route: 400 for a malformed VIN, 500
when the handler throws (bad `ErrorCode`), success otherwise. -/
inductive DecodeResponse where
  | badRequest : DecodeResponse
  | serverError : DecodeResponse
  | ok (vehicle : Vehicle) (baseValue marketValue : ℤ) : DecodeResponse
deriving DecidableEq

/-- The `/api/vehicle/decode` route of `src/unnamed/part_003`: rejects a
VIN whose length is not 17 with a 400; throws (caught as a 500) when the
NHTSA `ErrorCode` is neither "0" nor "1"; otherwise builds the vehicle
with `|| 'Unknown'` / `|| ''` / `|| null` defaults and returns it with
`calculateBaseValue` and `marketValue = Math.round(baseValue * 1.3)`. -/
def decodeHandler (vin : String) (d : NhtsaData) (currentYear : ℤ) :
    DecodeResponse :=
  if vin.length ≠ 17 then .badRequest
  else if d.errorCode ≠ "0" ∧ d.errorCode ≠ "1" then .serverError
  else
    let vehicle : Vehicle :=
      { year := parsedOrNull d.modelYear
        make := some (jsOrStr d.make "Unknown")
        model := some (jsOrStr d.model "Unknown")
        bodyClass := some (jsOrStr d.bodyClass "")
        fuelType := some (jsOrStr d.fuelType "")
        engineCylinders := parsedOrNull d.engineCylinders }
    let baseValue := calculateBaseValue vehicle currentYear
    .ok vehicle baseValue (jsRound ((baseValue : ℚ) * (13/10)))

end Part003

namespace ServerJs

/-! The carAPI variant in `src/server.js`: `calculateBaseValue`
(lines 206-245) and the `/api/vehicle/decode` route (lines 89-203). -/

/-- The `vehicleInfo` fields read by this variant of
`calculateBaseValue`: `year` is the value `parseInt(vehicle.year)` acts
on (`none` models the string Unknown, which parses to NaN). -/
structure SVehicle where
  year : Option ℤ
  make : Option String
  bodyClass : Option String
deriving DecidableEq

/-- The MSRP-path depreciation table (lines 214-221).  A NaN age fails
every comparison and falls to the final branch. -/
def msrpRetention (age : Option ℤ) : ℚ :=
  match age with
  | some a =>
    if a ≤ 1 then 4/5
    else if a ≤ 2 then 7/10
    else if a ≤ 3 then 3/5
    else if a ≤ 5 then 9/20
    else if a ≤ 7 then 7/20
    else if a ≤ 10 then 1/4
    else 3/20
  | none => 3/20

/-- The flat-path age tier (lines 229-234).  A NaN age fails every
comparison and falls to the final branch. -/
def flatTier (age : Option ℤ) : ℚ :=
  match age with
  | some a =>
    if a ≤ 1 then 35000
    else if a ≤ 3 then 28000
    else if a ≤ 5 then 22000
    else if a ≤ 7 then 18000
    else if a ≤ 10 then 14000
    else 10000
  | none => 10000

/-- `currentYear - parseInt(vehicle.year)` as an optional integer:
`none` when the year does not parse. -/
def sAge (v : SVehicle) (currentYear : ℤ) : Option ℤ :=
  match v.year with
  | some y => some (currentYear - y)
  | none => none

/-- The flat (non-MSRP) path of the server.js `calculateBaseValue`
(lines 229-241), before rounding: the age tier with the four independent
case-insensitive substring multipliers. -/
def flatBase (v : SVehicle) (currentYear : ℤ) : ℚ :=
  let b0 := flatTier (sAge v currentYear)
  let b1 := if jsIncludesLower v.bodyClass "truck" then b0 * (6/5) else b0
  let b2 := if jsIncludesLower v.bodyClass "suv" then b1 * (23/20) else b1
  let b3 :=
    if jsIncludesLower v.make "bmw" || jsIncludesLower v.make "mercedes" then
      b2 * (13/10)
    else b2
  let b4 :=
    if jsIncludesLower v.make "honda" || jsIncludesLower v.make "toyota" then
      b3 * (11/10)
    else b3
  b4

/-- `calculateBaseValue(vehicle, msrp)` of `src/server.js` (lines
206-245): when `msrp && msrp > 0`, the MSRP retention table applies
directly to the MSRP; otherwise the flat tier path applies.  The result
is `Math.round`ed with no minimum floor. -/
def calculateBaseValue (v : SVehicle) (msrp : Option ℚ) (currentYear : ℤ) : ℤ :=
  match msrp with
  | some m =>
    if m ≠ 0 ∧ m > 0 then jsRound (m * msrpRetention (sAge v currentYear))
    else jsRound (flatBase v currentYear)
  | none => jsRound (flatBase v currentYear)

/-- The carAPI response fields the server.js decode route reads. -/
structure CarApiData where
  year : Option ℤ
  make : Option String
  model : Option String
  bodyClass : Option String
  msrp : Option ℚ
deriving DecidableEq

/-- JavaScript falsiness of an optional string (absent or empty). -/
def strFalsy (o : Option String) : Bool :=
  match o with
  | some s => s = ""
  | none => true

/-- JavaScript falsiness of an optional number (absent or zero). -/
def numFalsy (o : Option ℤ) : Bool :=
  match o with
  | some z => z = 0
  | none => true

/-- The response of the server.js decode route. -/
inductive SDecodeResponse where
  | badRequestVin : SDecodeResponse
  | badRequestIncomplete : SDecodeResponse
  | ok (vehicle : SVehicle) (baseValue : ℤ) (marketValue : Option ℚ) : SDecodeResponse
deriving DecidableEq

/-- The `/api/vehicle/decode` route of `src/server.js`, given a
successful upstream carAPI response `d` (credentials present, no HTTP
failure): rejects a VIN whose length is not 17; rejects a response in
which `data.make`, `data.model` or `data.year` is falsy with a 400
"VIN not found or incomplete data"; otherwise returns the mapped vehicle
with `calculateBaseValue(vehicleInfo, data.msrp)` and
`marketValue = data.msrp || null`. -/
def decodeHandler (vin : String) (d : CarApiData) (currentYear : ℤ) :
    SDecodeResponse :=
  if vin.length ≠ 17 then .badRequestVin
  else if strFalsy d.make || strFalsy d.model || numFalsy d.year then
    .badRequestIncomplete
  else
    let vehicle : SVehicle :=
      { year := Part003.parsedOrNull d.year
        make := some (jsOrStr d.make "Unknown")
        bodyClass := some (jsOrStr d.bodyClass "") }
    .ok vehicle (calculateBaseValue vehicle d.msrp currentYear) d.msrp

end ServerJs

/-! Helper lemmas about the JavaScript rounding function. -/

theorem jsRound_mono {a b : ℚ} (h : a ≤ b) : jsRound a ≤ jsRound b := by
  rw [jsRound_floor, jsRound_floor]
  exact Int.floor_le_floor (by linarith)

theorem jsRound_nonneg {q : ℚ} (h : 0 ≤ q) : 0 ≤ jsRound q := by
  rw [jsRound_floor]
  exact Int.le_floor.mpr (by push_cast; linarith)

theorem jsRound_cast_le (q : ℚ) : (jsRound q : ℚ) ≤ q + 1/2 := by
  rw [jsRound_floor]
  exact Int.floor_le (q + 1/2)

theorem jsRound_sub_le {x d : ℚ} {c : ℤ} (h : (c : ℚ) ≤ d) :
    jsRound (x - d) ≤ jsRound x - c := by
  have h1 : jsRound (x - d) ≤ jsRound (x - (c : ℚ)) := jsRound_mono (by linarith)
  have h2 : jsRound (x - (c : ℚ)) = jsRound x - c := by
    rw [jsRound_floor, jsRound_floor,
      show x - (c : ℚ) + 1/2 = x + 1/2 - (c : ℚ) by ring, Int.floor_sub_int]
  omega

namespace Part003

/-- The fold computing the condition adjustment, written as the explicit
four-term sum. -/
theorem conditionAdjustment_eq (cd : ConditionData) :
    conditionAdjustment cd =
      (if cd.tires = JSVal.bool false then (-300 : ℚ) else 0)
      + (if cd.windshield = JSVal.bool false then -200 else 0)
      + (if cd.lights = JSVal.bool false then -500 else 0)
      + (if cd.accidents = JSVal.bool false then -2000 else 0) := by
  simp [conditionAdjustment]

theorem conditionAdjustment_nonpos (cd : ConditionData) :
    conditionAdjustment cd ≤ 0 := by
  rw [conditionAdjustment_eq]
  split_ifs <;> norm_num

theorem mileagePenalty_nonneg (m : Option ℚ) (e : ℚ) :
    0 ≤ mileagePenalty m e := by
  unfold mileagePenalty
  match m with
  | none => exact le_refl 0
  | some mv =>
    by_cases h : mv - e > 0
    · simp only [h, if_true]
      exact_mod_cast jsRound_nonneg (by positivity)
    · simp [h]

end Part003

theorem le_jsRound_of_le {c : ℤ} {q : ℚ} (h : (c : ℚ) ≤ q) : c ≤ jsRound q := by
  rw [jsRound_floor]
  exact Int.le_floor.mpr (by linarith)

/-! Claim C1: offer amount versus the supplied base value. -/

/-- C1 (amended): when the supplied base value is at least the 1000
minimum, the returned offerAmount is at most the base value and at least
1000.  (As stated, the claim fails for base values below 1000, where the
minimum-offer floor pushes the offer above the base value; see the
counterexample.) -/
theorem offer_amount_within_base_and_floor
    (vd : Part003.OfferVehicleData) (cd : Part003.ConditionData)
    (mileage : Option ℚ) (hasPhotos : JSVal) (currentYear : ℤ) (b : ℚ)
    (hb : vd.baseValue = some b) (hmin : (1000 : ℚ) ≤ b) :
    ((Part003.calculateOffer vd cd mileage hasPhotos currentYear).offerAmount : ℚ) ≤ b ∧
      1000 ≤ (Part003.calculateOffer vd cd mileage hasPhotos currentYear).offerAmount := by
  have hb0 : b ≠ 0 := by intro h0; rw [h0] at hmin; norm_num at hmin
  have hbase : jsOrQ vd.baseValue 25000 = b := by rw [hb]; simp [jsOrQ, hb0]
  have hB : Part003.offerBeforeDiscount vd cd mileage currentYear ≤ b := by
    unfold Part003.offerBeforeDiscount
    rw [hbase]
    have h1 := Part003.conditionAdjustment_nonpos cd
    have h2 := Part003.mileagePenalty_nonneg mileage
      (12000 * ((Part003.vehicleAge vd currentYear : ℤ) : ℚ))
    linarith
  have hA3 : ((Part003.offerRounded vd cd mileage currentYear : ℤ) : ℚ) ≤ b := by
    unfold Part003.offerRounded
    calc ((jsRound (Part003.offerBeforeDiscount vd cd mileage currentYear * (83/100)) : ℤ) : ℚ)
        ≤ Part003.offerBeforeDiscount vd cd mileage currentYear * (83/100) + 1/2 :=
          jsRound_cast_le _
      _ ≤ b * (83/100) + 1/2 := by linarith
      _ ≤ b := by linarith
  constructor
  · simp only [Part003.calculateOffer]
    push_cast
    exact max_le hA3 (by linarith)
  · simp only [Part003.calculateOffer]
    exact le_max_right _ _

/-- C1 counterexample: with a supplied base value of 500 the handler
returns the 1000 floor, which exceeds the base value, refuting the claim
as stated. -/
theorem offer_amount_within_base_counterexample :
    (Part003.calculateOffer ⟨some 500, some 2020⟩ Part003.emptyCondition
        (some 0) JSVal.undef 2026).offerAmount = 1000 ∧
    ¬ (((Part003.calculateOffer ⟨some 500, some 2020⟩ Part003.emptyCondition
        (some 0) JSVal.undef 2026).offerAmount : ℚ) ≤ 500) := by
  have h : (Part003.calculateOffer ⟨some 500, some 2020⟩ Part003.emptyCondition
      (some 0) JSVal.undef 2026).offerAmount = 1000 := by
    simp [Part003.calculateOffer, Part003.offerRounded, Part003.offerBeforeDiscount,
      Part003.conditionAdjustment, Part003.mileagePenalty, Part003.vehicleAge,
      jsOrQ, jsOrZ, Part003.emptyCondition, jsRound_floor]
    norm_num
  refine ⟨h, ?_⟩
  rw [h]
  norm_num

/-- C1 witness: the amended bound evaluated at a concrete input. -/
theorem offer_amount_within_base_witness :
    ((Part003.calculateOffer ⟨some 20000, some 2020⟩ Part003.emptyCondition
        (some 0) JSVal.undef 2026).offerAmount : ℚ) ≤ 20000 ∧
      1000 ≤ (Part003.calculateOffer ⟨some 20000, some 2020⟩ Part003.emptyCondition
        (some 0) JSVal.undef 2026).offerAmount :=
  offer_amount_within_base_and_floor _ _ _ _ _ 20000 rfl (by norm_num)

/-! Claim C3: the minimum floor of the base value estimators. -/

/-- Integer-scaled form of the uncapped depreciation rate (twentieths). -/
def depTwentieths (n : ℤ) : ℤ :=
  if n = 0 then 0 else if n = 1 then 4 else if n ≤ 5 then 4 + (n - 1) * 3
  else 16 + (n - 5) * 2

theorem depreciationRateRaw_eq_div (n : ℤ) :
    Part003.depreciationRateRaw n = (depTwentieths n : ℚ) / 20 := by
  unfold Part003.depreciationRateRaw depTwentieths
  split_ifs <;> push_cast <;> ring

theorem flatBase_ge (v : ServerJs.SVehicle) (currentYear : ℤ) :
    (10000 : ℚ) ≤ ServerJs.flatBase v currentYear := by
  have h0 : (10000 : ℚ) ≤ ServerJs.flatTier (ServerJs.sAge v currentYear) := by
    unfold ServerJs.flatTier
    rcases ServerJs.sAge v currentYear with _ | a
    · norm_num
    · dsimp only
      split_ifs <;> norm_num
  unfold ServerJs.flatBase
  split_ifs <;> linarith

/-- C3 (amended): the part_003 estimator always returns at least 1000;
the server.js estimator returns at least 1000 whenever no positive MSRP
is supplied (its flat tiers start at 10000 and every multiplier is at
least 1).  The server.js MSRP path applies no floor at all and can fall
below 1000 for a small positive MSRP; see the counterexample. -/
theorem baseValue_minimum_floor :
    (∀ (v : Part003.Vehicle) (currentYear : ℤ),
      1000 ≤ Part003.calculateBaseValue v currentYear) ∧
    (∀ (v : ServerJs.SVehicle) (currentYear : ℤ),
      1000 ≤ ServerJs.calculateBaseValue v none currentYear) := by
  constructor
  · intro v currentYear
    simp only [Part003.calculateBaseValue]
    exact le_max_right _ _
  · intro v currentYear
    simp only [ServerJs.calculateBaseValue]
    exact le_jsRound_of_le (by have := flatBase_ge v currentYear; push_cast; linarith)

/-- C3 counterexample: the server.js estimator on the MSRP path with
MSRP 100 and a one-year-old vehicle returns 80, below the claimed 1000
minimum. -/
theorem baseValue_minimum_floor_counterexample :
    ServerJs.calculateBaseValue ⟨some 2025, none, none⟩ (some 100) 2026 = 80 ∧
    ¬ (1000 ≤ ServerJs.calculateBaseValue ⟨some 2025, none, none⟩ (some 100) 2026) := by
  have h : ServerJs.calculateBaseValue ⟨some 2025, none, none⟩ (some 100) 2026 = 80 := by
    simp [ServerJs.calculateBaseValue, ServerJs.msrpRetention, ServerJs.sAge, jsRound_floor]
    norm_num
  exact ⟨h, by rw [h]; norm_num⟩

/-! Claim C4: monotone, capped depreciation. -/

theorem depreciationRateRaw_mono {a b : ℤ} (h : a ≤ b) :
    Part003.depreciationRateRaw a ≤ Part003.depreciationRateRaw b := by
  rw [depreciationRateRaw_eq_div, depreciationRateRaw_eq_div]
  have h2 : depTwentieths a ≤ depTwentieths b := by
    unfold depTwentieths
    split_ifs <;> omega
  have h3 : (depTwentieths a : ℚ) ≤ (depTwentieths b : ℚ) := by exact_mod_cast h2
  linarith

/-- C4: the capped depreciation rate is monotonically non-decreasing in
age and never exceeds 85 percent, so the depreciated base (before the
category multipliers) never falls below 25000 times 0.15 and is antitone
in age. -/
theorem depreciation_monotone_and_capped (a1 a2 : ℤ) (h : a1 ≤ a2) :
    Part003.depreciationRate a1 ≤ Part003.depreciationRate a2 ∧
    Part003.depreciationRate a2 ≤ 17/20 ∧
    25000 * (3/20) ≤ Part003.depreciatedBase a2 ∧
    Part003.depreciatedBase a2 ≤ Part003.depreciatedBase a1 := by
  have hm : Part003.depreciationRate a1 ≤ Part003.depreciationRate a2 :=
    min_le_min (depreciationRateRaw_mono h) le_rfl
  have hc : Part003.depreciationRate a2 ≤ 17/20 := min_le_right _ _
  refine ⟨hm, hc, ?_, ?_⟩
  · unfold Part003.depreciatedBase
    linarith
  · unfold Part003.depreciatedBase
    linarith

/-- C4 witness: the monotone capped depreciation evaluated at ages 3 and
10. -/
theorem depreciation_monotone_witness :
    Part003.depreciationRate 3 ≤ Part003.depreciationRate 10 ∧
    Part003.depreciationRate 10 ≤ 17/20 ∧
    25000 * (3/20) ≤ Part003.depreciatedBase 10 ∧
    Part003.depreciatedBase 10 ≤ Part003.depreciatedBase 3 :=
  depreciation_monotone_and_capped 3 10 (by norm_num)

/-! Claim C5: totality of the offer calculator. -/

/-- C5 (amended): the offer calculator is total — it returns a successful
OfferResult — whenever the request carries `vehicleData` and
`conditionData` objects, however incomplete their fields (absent base
value, year, flags or mileage all take documented defaults).  When the
`conditionData` (or `vehicleData`) object itself is absent, the handler
throws a TypeError at the property access and the route catch returns an
error response, so the claim as stated fails; see the counterexample. -/
theorem offer_handler_total_when_objects_present
    (vd : Part003.OfferVehicleData) (cd : Part003.ConditionData)
    (mileage : Option ℚ) (hasPhotos : JSVal) (currentYear : ℤ) :
    ∃ r : Part003.OfferResponse,
      Part003.offerHandler (some vd) (some cd) mileage hasPhotos currentYear =
        Except.ok r :=
  ⟨_, rfl⟩

/-- C5 counterexample: with `conditionData` absent from the request body
the handler returns the caught-error response, not a successful
OfferResult. -/
theorem offer_handler_error_counterexample :
    Part003.offerHandler (some ⟨some 20000, some 2020⟩) none (some 0)
      JSVal.undef 2026 = Except.error () := rfl

/-! Claim C2: stacking of the truck brand and truck body multipliers. -/

theorem maxRound_congr {x y : ℚ} (h : x = y) :
    max (jsRound x) 1000 = max (jsRound y) 1000 := by rw [h]

/-- C2 (amended): when the make is a domestic truck brand (and not in the
premium or reliable lists), the body class contains "Truck", and the
body class is not also SUV-matched, the estimator applies BOTH the 1.3
truck-brand multiplier and the 1.25 truck-body multiplier, compounded —
not at most one of them as the claim requires; see the counterexample. -/
theorem truck_multipliers_both_apply (v : Part003.Vehicle) (currentYear : ℤ)
    (hprem : listIncludes Part003.premiumMakes v.make = false)
    (hrel : listIncludes Part003.reliableMakes v.make = false)
    (htruck : listIncludes Part003.truckMakes v.make = true)
    (hbody : jsIncludes v.bodyClass "Truck" = true)
    (hsuv : (jsIncludes v.bodyClass "SUV" || jsIncludes v.bodyClass "Sport Utility") = false) :
    Part003.calculateBaseValue v currentYear =
      max (jsRound (Part003.depreciatedBase (currentYear - jsOrZ v.year 2020)
        * (13/10) * (5/4) * Part003.fuelFactor v * Part003.engineFactor v)) 1000 := by
  simp only [Part003.calculateBaseValue, Part003.fuelFactor, Part003.engineFactor,
    hprem, hrel, htruck, hbody, hsuv, Bool.and_self, Bool.true_or,
    Bool.false_eq_true, if_false, if_true]
  rcases v.engineCylinders with _ | c
  · split_ifs <;> exact maxRound_congr (by dsimp only; ring)
  · split_ifs <;> exact maxRound_congr (by dsimp only; split_ifs <;> ring)

/-- C2 counterexample: a Ford with body class "Truck" (age 0, no other
multipliers) is valued at 25000 times 1.3 times 1.25 equals 40625,
strictly above the 32500 that applying only the larger single truck
multiplier would give — both truck multipliers were applied. -/
theorem truck_multipliers_counterexample :
    Part003.calculateBaseValue ⟨some 2026, some "Ford", none, some "Truck", none, none⟩ 2026
      = 40625 ∧
    max (jsRound ((25000 : ℚ) * (13/10))) 1000 <
      Part003.calculateBaseValue ⟨some 2026, some "Ford", none, some "Truck", none, none⟩ 2026 := by
  have h : Part003.calculateBaseValue
      ⟨some 2026, some "Ford", none, some "Truck", none, none⟩ 2026 = 40625 := by
    simp [Part003.calculateBaseValue, Part003.depreciatedBase, Part003.depreciationRate,
      Part003.depreciationRateRaw, jsOrZ, listIncludes, jsIncludes,
      Part003.premiumMakes, Part003.reliableMakes, Part003.truckMakes, containsSeq,
      jsRound_floor]
    norm_num
  have h2 : max (jsRound ((25000 : ℚ) * (13/10))) 1000 = 32500 := by
    rw [jsRound_floor]
    norm_num
  exact ⟨h, by rw [h, h2]; norm_num⟩

/-- C2 witness: the amended compounding behaviour evaluated on a concrete
Ford pickup. -/
theorem truck_multipliers_both_apply_witness :
    Part003.calculateBaseValue ⟨some 2026, some "Ford", none, some "Truck", none, none⟩ 2026 =
      max (jsRound (Part003.depreciatedBase (2026 - jsOrZ (some 2026) 2020)
        * (13/10) * (5/4)
        * Part003.fuelFactor ⟨some 2026, some "Ford", none, some "Truck", none, none⟩
        * Part003.engineFactor ⟨some 2026, some "Ford", none, some "Truck", none, none⟩)) 1000 :=
  truck_multipliers_both_apply _ _ (by decide) (by decide) (by decide) (by decide) (by decide)

/-! Claim C6: effect of mileage on the offer amount. -/

theorem mileagePenalty_at_expected (e : ℚ) : Part003.mileagePenalty (some e) e = 0 := by
  simp [Part003.mileagePenalty]

/-- C6 (amended): mileage at or below the age-expected baseline incurs no
penalty and yields the same offerAmount as the zero-excess case; mileage
above the baseline yields an offerAmount at most — not strictly below —
that of the baseline case (the per-1000-mile penalty rounds to zero for
excesses under ten miles, and the 1000 floor can absorb a decrease; see
the counterexample). -/
theorem mileage_monotone (vd : Part003.OfferVehicleData) (cd : Part003.ConditionData)
    (hasPhotos : JSVal) (currentYear : ℤ) (m : ℚ) :
    (m ≤ 12000 * ((Part003.vehicleAge vd currentYear : ℤ) : ℚ) →
      (Part003.calculateOffer vd cd (some m) hasPhotos currentYear).offerAmount =
      (Part003.calculateOffer vd cd
        (some (12000 * ((Part003.vehicleAge vd currentYear : ℤ) : ℚ)))
        hasPhotos currentYear).offerAmount) ∧
    (12000 * ((Part003.vehicleAge vd currentYear : ℤ) : ℚ) < m →
      (Part003.calculateOffer vd cd (some m) hasPhotos currentYear).offerAmount ≤
      (Part003.calculateOffer vd cd
        (some (12000 * ((Part003.vehicleAge vd currentYear : ℤ) : ℚ)))
        hasPhotos currentYear).offerAmount) := by
  constructor
  · intro hle
    have hpen : Part003.mileagePenalty (some m)
        (12000 * ((Part003.vehicleAge vd currentYear : ℤ) : ℚ)) = 0 := by
      simp only [Part003.mileagePenalty]
      rw [if_neg (by linarith)]
    simp only [Part003.calculateOffer, Part003.offerRounded,
      Part003.offerBeforeDiscount, hpen, mileagePenalty_at_expected]
  · intro hlt
    have hpen : 0 ≤ Part003.mileagePenalty (some m)
        (12000 * ((Part003.vehicleAge vd currentYear : ℤ) : ℚ)) :=
      Part003.mileagePenalty_nonneg _ _
    have hB : Part003.offerBeforeDiscount vd cd (some m) currentYear ≤
        Part003.offerBeforeDiscount vd cd
          (some (12000 * ((Part003.vehicleAge vd currentYear : ℤ) : ℚ))) currentYear := by
      unfold Part003.offerBeforeDiscount
      rw [mileagePenalty_at_expected]
      linarith
    simp only [Part003.calculateOffer]
    exact max_le_max (jsRound_mono (by linarith)) le_rfl

/-- C6 counterexample: with expected mileage 12000, actual mileage 12001
strictly exceeds the baseline yet the offerAmount is unchanged (the
one-mile excess rounds to a zero penalty), refuting the strict decrease
the claim states. -/
theorem mileage_monotone_counterexample :
    (12000 : ℚ) * ((Part003.vehicleAge ⟨some 20000, some 2025⟩ 2026 : ℤ) : ℚ) < 12001 ∧
    (Part003.calculateOffer ⟨some 20000, some 2025⟩ Part003.emptyCondition
        (some 12001) JSVal.undef 2026).offerAmount =
    (Part003.calculateOffer ⟨some 20000, some 2025⟩ Part003.emptyCondition
        (some 12000) JSVal.undef 2026).offerAmount := by
  constructor
  · simp [Part003.vehicleAge, jsOrZ]
    norm_num
  · have h1 : (Part003.calculateOffer ⟨some 20000, some 2025⟩ Part003.emptyCondition
        (some 12001) JSVal.undef 2026).offerAmount = 16600 := by
      simp [Part003.calculateOffer, Part003.offerRounded, Part003.offerBeforeDiscount,
        Part003.conditionAdjustment, Part003.mileagePenalty, Part003.vehicleAge,
        jsOrQ, jsOrZ, Part003.emptyCondition, jsRound_floor]
      norm_num
    have h2 : (Part003.calculateOffer ⟨some 20000, some 2025⟩ Part003.emptyCondition
        (some 12000) JSVal.undef 2026).offerAmount = 16600 := by
      simp [Part003.calculateOffer, Part003.offerRounded, Part003.offerBeforeDiscount,
        Part003.conditionAdjustment, Part003.mileagePenalty, Part003.vehicleAge,
        jsOrQ, jsOrZ, Part003.emptyCondition, jsRound_floor]
      norm_num
    rw [h1, h2]

/-- C6 witness: both branches of the amended monotonicity at concrete
inputs (expected mileage 12000 for a 2025 vehicle in 2026). -/
theorem mileage_monotone_witness :
    (Part003.calculateOffer ⟨some 20000, some 2025⟩ Part003.emptyCondition
        (some 100) JSVal.undef 2026).offerAmount =
      (Part003.calculateOffer ⟨some 20000, some 2025⟩ Part003.emptyCondition
        (some (12000 * ((Part003.vehicleAge ⟨some 20000, some 2025⟩ 2026 : ℤ) : ℚ)))
        JSVal.undef 2026).offerAmount ∧
    (Part003.calculateOffer ⟨some 20000, some 2025⟩ Part003.emptyCondition
        (some 20000) JSVal.undef 2026).offerAmount ≤
      (Part003.calculateOffer ⟨some 20000, some 2025⟩ Part003.emptyCondition
        (some (12000 * ((Part003.vehicleAge ⟨some 20000, some 2025⟩ 2026 : ℤ) : ℚ)))
        JSVal.undef 2026).offerAmount :=
  ⟨(mileage_monotone ⟨some 20000, some 2025⟩ Part003.emptyCondition JSVal.undef 2026 100).1
      (by simp [Part003.vehicleAge, jsOrZ]; norm_num),
   (mileage_monotone ⟨some 20000, some 2025⟩ Part003.emptyCondition JSVal.undef 2026 20000).2
      (by simp [Part003.vehicleAge, jsOrZ]; norm_num)⟩

/-! Claim C7: effect of each condition flag on the offer amount. -/

/-- C7: for any single condition flag and otherwise identical inputs, the
offerAmount with the flag false is strictly smaller than with the flag
true, except when both results are clamped to the 1000 floor, in which
case they are equal. -/
theorem condition_flag_decreases_offer (vd : Part003.OfferVehicleData)
    (cd : Part003.ConditionData) (m : Option ℚ) (hasPhotos : JSVal)
    (currentYear : ℤ) (f : Part003.CFlag) :
    (Part003.calculateOffer vd (Part003.setFlag cd f (JSVal.bool false)) m
        hasPhotos currentYear).offerAmount <
      (Part003.calculateOffer vd (Part003.setFlag cd f (JSVal.bool true)) m
        hasPhotos currentYear).offerAmount ∨
    ((Part003.calculateOffer vd (Part003.setFlag cd f (JSVal.bool false)) m
        hasPhotos currentYear).offerAmount = 1000 ∧
     (Part003.calculateOffer vd (Part003.setFlag cd f (JSVal.bool true)) m
        hasPhotos currentYear).offerAmount = 1000) := by
  obtain ⟨p, hp200, hpe⟩ : ∃ p : ℤ, 200 ≤ p ∧
      Part003.conditionAdjustment (Part003.setFlag cd f (JSVal.bool false)) =
      Part003.conditionAdjustment (Part003.setFlag cd f (JSVal.bool true)) - (p : ℚ) := by
    cases f
    · exact ⟨300, by norm_num,
        by simp [Part003.conditionAdjustment_eq, Part003.setFlag]; ring⟩
    · exact ⟨200, by norm_num,
        by simp [Part003.conditionAdjustment_eq, Part003.setFlag]; ring⟩
    · exact ⟨500, by norm_num,
        by simp [Part003.conditionAdjustment_eq, Part003.setFlag]; ring⟩
    · exact ⟨2000, by norm_num,
        by simp [Part003.conditionAdjustment_eq, Part003.setFlag]; ring⟩
  have hBf : Part003.offerBeforeDiscount vd (Part003.setFlag cd f (JSVal.bool false)) m currentYear =
      Part003.offerBeforeDiscount vd (Part003.setFlag cd f (JSVal.bool true)) m currentYear - p := by
    unfold Part003.offerBeforeDiscount
    rw [hpe]
    ring
  have hOf : Part003.offerRounded vd (Part003.setFlag cd f (JSVal.bool false)) m currentYear ≤
      Part003.offerRounded vd (Part003.setFlag cd f (JSVal.bool true)) m currentYear - 166 := by
    unfold Part003.offerRounded
    rw [hBf, show (Part003.offerBeforeDiscount vd
        (Part003.setFlag cd f (JSVal.bool true)) m currentYear - (p : ℚ)) * (83/100) =
      Part003.offerBeforeDiscount vd (Part003.setFlag cd f (JSVal.bool true)) m currentYear
        * (83/100) - (p : ℚ) * (83/100) by ring]
    refine jsRound_sub_le ?_
    have hp' : (200 : ℚ) ≤ (p : ℚ) := by exact_mod_cast hp200
    push_cast
    linarith
  by_cases hcl : Part003.offerRounded vd (Part003.setFlag cd f (JSVal.bool true)) m currentYear ≤ 1000
  · right
    constructor
    · simp only [Part003.calculateOffer]
      exact max_eq_right (by omega)
    · simp only [Part003.calculateOffer]
      exact max_eq_right hcl
  · left
    push_neg at hcl
    simp only [Part003.calculateOffer]
    rw [max_eq_left (le_of_lt hcl)]
    exact max_lt (by omega) hcl

/-! Claim C9: only the boolean literal false incurs a penalty. -/

/-- C9: a condition flag incurs its penalty exactly when its value is the
boolean literal false — any other value (absent, true, numbers including
0, strings) behaves like true — and an all-absent condition set produces
the same response as an all-true one. -/
theorem condition_flag_false_literal_only (vd : Part003.OfferVehicleData)
    (cd : Part003.ConditionData) (m : Option ℚ) (hasPhotos : JSVal)
    (currentYear : ℤ) (f : Part003.CFlag) (v : JSVal)
    (hv : v ≠ JSVal.bool false) :
    Part003.calculateOffer vd (Part003.setFlag cd f v) m hasPhotos currentYear =
      Part003.calculateOffer vd (Part003.setFlag cd f (JSVal.bool true)) m
        hasPhotos currentYear ∧
    Part003.calculateOffer vd Part003.emptyCondition m hasPhotos currentYear =
      Part003.calculateOffer vd Part003.allTrueCondition m hasPhotos currentYear := by
  have hadj : ∀ cd1 cd2 : Part003.ConditionData,
      Part003.conditionAdjustment cd1 = Part003.conditionAdjustment cd2 →
      Part003.calculateOffer vd cd1 m hasPhotos currentYear =
        Part003.calculateOffer vd cd2 m hasPhotos currentYear := by
    intro cd1 cd2 hct
    simp only [Part003.calculateOffer, Part003.offerRounded,
      Part003.offerBeforeDiscount, hct]
  refine ⟨hadj _ _ ?_, hadj _ _ ?_⟩
  · cases f <;> simp [Part003.conditionAdjustment_eq, Part003.setFlag, hv]
  · simp [Part003.conditionAdjustment_eq, Part003.emptyCondition,
      Part003.allTrueCondition]

/-- C9 witness: the flag-value insensitivity evaluated at a concrete
input with the tires flag absent. -/
theorem condition_flag_false_literal_witness :
    Part003.calculateOffer ⟨some 20000, some 2020⟩
        (Part003.setFlag Part003.allTrueCondition Part003.CFlag.tires JSVal.undef)
        (some 0) JSVal.undef 2026 =
      Part003.calculateOffer ⟨some 20000, some 2020⟩
        (Part003.setFlag Part003.allTrueCondition Part003.CFlag.tires (JSVal.bool true))
        (some 0) JSVal.undef 2026 ∧
    Part003.calculateOffer ⟨some 20000, some 2020⟩ Part003.emptyCondition
        (some 0) JSVal.undef 2026 =
      Part003.calculateOffer ⟨some 20000, some 2020⟩ Part003.allTrueCondition
        (some 0) JSVal.undef 2026 :=
  condition_flag_false_literal_only _ _ _ _ _ Part003.CFlag.tires JSVal.undef (by decide)

/-! Claim C10: internal consistency of the offer response. -/

/-- C10: in every offer response the top-level offerAmount equals
offerDetails.finalOffer, and offerDetails.conditionAdjustment is the sum
of the fixed penalties of exactly the flags that are the literal
false. -/
theorem offer_response_consistency (vd : Part003.OfferVehicleData)
    (cd : Part003.ConditionData) (m : Option ℚ) (hasPhotos : JSVal)
    (currentYear : ℤ) :
    (Part003.calculateOffer vd cd m hasPhotos currentYear).offerAmount =
      (Part003.calculateOffer vd cd m hasPhotos currentYear).offerDetails.finalOffer ∧
    (Part003.calculateOffer vd cd m hasPhotos currentYear).offerDetails.conditionAdjustment =
      (if cd.tires = JSVal.bool false then (-300 : ℚ) else 0)
      + (if cd.windshield = JSVal.bool false then -200 else 0)
      + (if cd.lights = JSVal.bool false then -500 else 0)
      + (if cd.accidents = JSVal.bool false then -2000 else 0) := by
  refine ⟨rfl, ?_⟩
  simp only [Part003.calculateOffer]
  exact Part003.conditionAdjustment_eq cd

/-! Claim C8: tolerance of missing upstream fields in the decode
endpoints. -/

/-- C8 (amended): the part_003 decode endpoint tolerates missing
attribute fields — for any upstream record with an acceptable ErrorCode
it returns success, substituting "Unknown" strings and null numerics for
absent fields.  The server.js decode endpoint does not: a response with
make, model or year missing is rejected with a 400 "incomplete data"
error (see the counterexample), so the claim as stated fails for that
endpoint. -/
theorem decode_tolerates_missing_fields (vin : String) (d : Part003.NhtsaData)
    (currentYear : ℤ) (hvin : vin.length = 17)
    (herr : d.errorCode = "0" ∨ d.errorCode = "1") :
    (∃ veh bv mv,
      Part003.decodeHandler vin d currentYear = Part003.DecodeResponse.ok veh bv mv ∧
      (d.make = none → veh.make = some "Unknown") ∧
      (d.model = none → veh.model = some "Unknown") ∧
      (d.modelYear = none → veh.year = none)) ∧
    (∀ (vin2 : String) (d2 : ServerJs.CarApiData),
      vin2.length = 17 → ServerJs.strFalsy d2.make = true →
      ServerJs.decodeHandler vin2 d2 currentYear =
        ServerJs.SDecodeResponse.badRequestIncomplete) := by
  have h1 : ¬ (vin.length ≠ 17) := by simp [hvin]
  have h2 : ¬ (d.errorCode ≠ "0" ∧ d.errorCode ≠ "1") := by
    rcases herr with h | h <;> simp [h]
  constructor
  · unfold Part003.decodeHandler
    rw [if_neg h1, if_neg h2]
    refine ⟨_, _, _, rfl, ?_, ?_, ?_⟩
    · intro hmk
      simp [jsOrStr, hmk]
    · intro hmd
      simp [jsOrStr, hmd]
    · intro hyr
      simp [Part003.parsedOrNull, hyr]
  · intro vin2 d2 hv2 hmk
    unfold ServerJs.decodeHandler
    rw [if_neg (by simp [hv2]), if_pos (by simp [hmk])]

/-- C8 counterexample: the server.js decode endpoint, given a valid VIN
and an upstream record whose make is absent, returns the 400
incomplete-data error instead of a successful response. -/
theorem decode_missing_fields_counterexample :
    ServerJs.decodeHandler "AAAAAAAAAAAAAAAAA" ⟨some 2020, none, some "Civic", none, none⟩
      2026 = ServerJs.SDecodeResponse.badRequestIncomplete := by decide

/-- C8 witness: the part_003 tolerance applied to a concrete upstream
record with every attribute field absent. -/
theorem decode_tolerates_missing_fields_witness :
    (∃ veh bv mv,
      Part003.decodeHandler "11111111111111111" ⟨"0", none, none, none, none, none, none⟩
          2026 = Part003.DecodeResponse.ok veh bv mv ∧
      ((⟨"0", none, none, none, none, none, none⟩ : Part003.NhtsaData).make = none →
        veh.make = some "Unknown") ∧
      ((⟨"0", none, none, none, none, none, none⟩ : Part003.NhtsaData).model = none →
        veh.model = some "Unknown") ∧
      ((⟨"0", none, none, none, none, none, none⟩ : Part003.NhtsaData).modelYear = none →
        veh.year = none)) ∧
    (∀ (vin2 : String) (d2 : ServerJs.CarApiData),
      vin2.length = 17 → ServerJs.strFalsy d2.make = true →
      ServerJs.decodeHandler vin2 d2 2026 =
        ServerJs.SDecodeResponse.badRequestIncomplete) :=
  decode_tolerates_missing_fields "11111111111111111"
    ⟨"0", none, none, none, none, none, none⟩ 2026 (by decide) (Or.inl rfl)

end CashOffer
